import Mathlib

/-!
Shallow embedding of `auto-obs-srt-bitrate-rtt-alert` (files
`auto-obs-srt-bitrate-rtt-alert_en.py` and `auto-obs-srt-bitrate-rtt-alert_kr.py`).

The two locale variants have identical abstract syntax except for the contents
of string literals that occur only in docstrings, log messages, the startup
banner and exception messages.  We therefore embed the monitor once,
parameterised by a `Msgs` record holding the locale-dependent message texts,
and instantiate it twice (`msgs_en`, `msgs_kr`).

Modelling choices:
- Python floats (times, bitrates, RTTs, thresholds) are modelled as `Int`:
  the program only compares and subtracts them, which is exact.
- Retry counters and the ignore counter are `Nat` (they are only ever 0, 1, 2, ...).
- Network and OBS interactions are inputs: each poll tick receives the
  environment's responses (`TickInput`) and the step function returns the next
  monitor state together with the list of external effects the Python code
  would perform (HTTP GET, OBS calls, log lines, sleeps, timer scheduling).
- `initial_wait_start` is a local variable of `BitrateMonitor.run`, but it is
  loop-carried state, so it lives in the state record.
- The deferred hide (the `hide_warning` thread body spawned in
  `_handle_low_bitrate`) is modelled as a separate step `hide_warning_run`
  together with a `scheduleHide` effect emitted when the thread is started.
-/

namespace AutoObs

/-- Configuration (`abc_config.json` fields used by the program). -/
structure Config where
  STATS_URL : String
  PUBLISHER : String
  OBS_HOST : String
  OBS_PORT : Int
  OBS_PASSWORD : String
  SOURCE_NAME : String
  SCENE_NAME : String
  BITRATE_THRESHOLD : Int
  RTT_THRESHOLD : Int
  COOLDOWN_SECONDS : Int
  SOURCE_DISPLAY_TIME : Int
deriving DecidableEq, Repr

/-- `BitrateMonitor._validate_config`: the numeric validation rules plus the
requirement that the string fields are present and non-empty.  The
`isinstance` checks hold by construction in this typed model. -/
def validate_config (c : Config) : Bool :=
  (0 < c.BITRATE_THRESHOLD) &&
  (1 < c.SOURCE_DISPLAY_TIME) &&
  (c.SOURCE_DISPLAY_TIME < c.COOLDOWN_SECONDS) &&
  (0 < c.OBS_PORT) &&
  (1 < c.RTT_THRESHOLD) &&
  (c.STATS_URL ≠ "") && (c.PUBLISHER ≠ "") && (c.OBS_HOST ≠ "") &&
  (c.OBS_PASSWORD ≠ "") && (c.SOURCE_NAME ≠ "") && (c.SCENE_NAME ≠ "")

/-- `BitrateMonitor.get_retry_delay`: exponential backoff from 2s capped at 32s. -/
def get_retry_delay (retry_count : Nat) : Nat :=
  min (2 * 2 ^ retry_count) 32

/-- One entry of the OBS `GetSceneItemList` response. -/
structure SceneItem where
  sourceName : String
  sceneItemId : Int
deriving DecidableEq, Repr

inductive LogLevel where
  | info
  | warning
  | error
deriving DecidableEq, Repr

/-- External effects performed by the monitor, in program order. -/
inductive Effect where
  | log (lvl : LogLevel) (msg : String)
  | obsDisconnect
  | obsConnectAttempt (host : String) (port : Int)
  | httpGet (url : String)
  | getSceneItemList (scene : String)
  | setSceneItemEnabled (scene : String) (id : Int) (enabled : Bool)
  | scheduleHide (delay : Int)
  | sleep (seconds : Int)
deriving DecidableEq, Repr

/-- Locale-dependent log/exception message texts.  Every behavioural string
(config keys, JSON keys, OBS request fields) is shared between the two
variants; only these texts differ.  Interpolated environment-provided details
(Python exception texts) are omitted. -/
structure Msgs where
  obs_connect_success : String
  obs_connect_lost : String
  obs_connect_failed : Nat → String
  srt_connect_success : String
  srt_connect_failed : Nat → String
  no_stream : String
  source_not_found : String → String
  source_id_error : String
  toggle_error : String
  low_bitrate_reason : Int → String
  high_rtt_reason : Int → String
  quality_warning : String → Int → String → String
  quality_warning_ended : String → String
  stream_detected : String

/-- English (`_en`) message texts. -/
def msgs_en : Msgs where
  obs_connect_success := "OBS WebSocket connection successful"
  obs_connect_lost := "OBS WebSocket connection lost"
  obs_connect_failed := fun d =>
    "OBS WebSocket connection failed. Retrying in " ++ toString d ++ " seconds..."
  srt_connect_success := "SRT server connection successful"
  srt_connect_failed := fun d =>
    "SRT server connection failed. Retrying in " ++ toString d ++ " seconds..."
  no_stream := "No stream detected. Waiting for stream to start..."
  source_not_found := fun src => "Source " ++ src ++ " not found in scene"
  source_id_error := "Error getting source ID"
  toggle_error := "Error toggling warning visibility"
  low_bitrate_reason := fun b => "Low bitrate: " ++ toString b ++ " kbps"
  high_rtt_reason := fun r => "High RTT: " ++ toString r ++ " ms"
  quality_warning := fun msg cooldown src =>
    "Stream quality warning - " ++ msg ++ " (Next alert in: " ++ toString cooldown
      ++ " seconds) [" ++ src ++ " shown]"
  quality_warning_ended := fun src => "Stream quality warning ended [" ++ src ++ " hidden]"
  stream_detected := "Stream detected. Skipping bitrate checks for the first 15 seconds..."

/-- Korean (`_kr`) message texts. -/
def msgs_kr : Msgs where
  obs_connect_success := "OBS WebSocket 연결 성공"
  obs_connect_lost := "OBS WebSocket 연결이 끊어졌습니다"
  obs_connect_failed := fun d => "OBS WebSocket 연결 실패. " ++ toString d ++ "초 후 재시도..."
  srt_connect_success := "SRT 서버 연결 성공"
  srt_connect_failed := fun d => "SRT 서버 연결 안됨. " ++ toString d ++ "초 후 재시도..."
  no_stream := "스트림 없음. 스트림이 시작될 때까지 대기 중..."
  source_not_found := fun src => "소스 " ++ src ++ "를 장면에서 찾을 수 없습니다"
  source_id_error := "소스 ID 가져오기 오류"
  toggle_error := "경고 표시/숨김 오류"
  low_bitrate_reason := fun b => "낮은 비트레이트: " ++ toString b ++ " kbps"
  high_rtt_reason := fun r => "높은 RTT: " ++ toString r ++ " ms"
  quality_warning := fun msg cooldown src =>
    "스트림 품질 경고 - " ++ msg ++ " (재알림 대기: " ++ toString cooldown ++ "초) ["
      ++ src ++ " 표시됨]"
  quality_warning_ended := fun src => "스트림 품질 경고 종료 [" ++ src ++ " 숨김]"
  stream_detected := "스트림 감지됨. 처음 15초 동안은 비트레이트 체크를 건너뜁니다..."

/-- The mutable fields of `BitrateMonitor`, plus the loop-local
`initial_wait_start` of `run`.  `hasWs` models `self.ws is not None`. -/
structure MonitorState where
  hasWs : Bool
  last_sent_time : Int
  ignore_count : Nat
  warning_active : Bool
  bitrate_none_logged : Bool
  server_connected : Bool
  server_retry_count : Nat
  obs_retry_count : Nat
  source_id : Option Int
  is_connected : Bool
  initial_wait_start : Option Int
deriving DecidableEq, Repr

/-- The field values assigned by `BitrateMonitor.__init__` before the initial
`connect_to_obs()` call. -/
def initFields : MonitorState where
  hasWs := false
  last_sent_time := 0
  ignore_count := 0
  warning_active := false
  bitrate_none_logged := false
  server_connected := false
  server_retry_count := 0
  obs_retry_count := 0
  source_id := none
  is_connected := false
  initial_wait_start := none

/-- `BitrateMonitor.connect_to_obs`.  `ok` is the environment's answer to the
WebSocket connect attempt.  After the attempt `self.ws` is a fresh object
whether or not `connect()` raised, hence `hasWs := true` in both branches. -/
def connect_to_obs (cfg : Config) (m : Msgs) (s : MonitorState) (ok : Bool) :
    Bool × MonitorState × List Effect :=
  let pre : List Effect :=
    (if s.hasWs then [Effect.obsDisconnect] else [])
      ++ [Effect.obsConnectAttempt cfg.OBS_HOST cfg.OBS_PORT]
  if ok then
    (true,
     { s with hasWs := true, is_connected := true, obs_retry_count := 0, source_id := none },
     pre ++ [Effect.log .info m.obs_connect_success])
  else
    let lostLog : List Effect :=
      if s.is_connected then [Effect.log .error m.obs_connect_lost] else []
    let delay := get_retry_delay s.obs_retry_count
    (false,
     { s with hasWs := true, is_connected := false,
              obs_retry_count := s.obs_retry_count + 1 },
     pre ++ lostLog ++ [Effect.log .error (m.obs_connect_failed delay)])

/-- `BitrateMonitor.ensure_obs_connection`.  `alive` is whether the existing
WebSocket transport reports connected; `ok` feeds a reconnect attempt. -/
def ensure_obs_connection (cfg : Config) (m : Msgs) (s : MonitorState)
    (alive ok : Bool) : Bool × MonitorState × List Effect :=
  if ¬ s.hasWs ∨ ¬ alive then
    let lostLog : List Effect :=
      if s.is_connected then [Effect.log .error m.obs_connect_lost] else []
    let s1 : MonitorState := if s.is_connected then { s with is_connected := false } else s
    let r := connect_to_obs cfg m s1 ok
    (r.1, r.2.1, lostLog ++ r.2.2)
  else
    (true, s, [])

/-- The environment's answer to one stats request: transport/HTTP failure, or
a parsed body giving the publisher's optional `bitrate` and optional `rtt`. -/
inductive FetchInput where
  | fail
  | ok (bitrate : Option Int) (rtt : Option Int)
deriving DecidableEq, Repr

/-- `BitrateMonitor._fetch_bitrate`.  Returns the `(bitrate, rtt,
server_connected)` triple of the Python function (with `none` standing for
Python `None`), the next state, and the effects. -/
def fetch_bitrate (cfg : Config) (m : Msgs) (s : MonitorState) (r : FetchInput) :
    (Option Int × Option Int × Bool) × MonitorState × List Effect :=
  match r with
  | .ok bitrate rtt =>
    let p1 : MonitorState × List Effect :=
      if ¬ s.server_connected then
        ({ s with server_connected := true, server_retry_count := 0 },
         [Effect.log .info m.srt_connect_success])
      else (s, [])
    let rttv : Int := rtt.getD 0
    let p2 : MonitorState × List Effect :=
      if bitrate.isNone ∧ ¬ p1.1.bitrate_none_logged then
        ({ p1.1 with bitrate_none_logged := true }, [Effect.log .info m.no_stream])
      else if bitrate.isSome then
        ({ p1.1 with bitrate_none_logged := false }, [])
      else (p1.1, [])
    ((bitrate, some rttv, true), p2.1, Effect.httpGet cfg.STATS_URL :: (p1.2 ++ p2.2))
  | .fail =>
    let delay := get_retry_delay s.server_retry_count
    ((none, none, false),
     { s with server_connected := false,
              server_retry_count := s.server_retry_count + 1,
              bitrate_none_logged := false },
     [Effect.httpGet cfg.STATS_URL, Effect.log .error (m.srt_connect_failed delay)])

/-- Linear search of `_get_source_id` over the scene item list. -/
def find_source : List SceneItem → String → Option Int
  | [], _ => none
  | item :: rest, name =>
    if item.sourceName = name then some item.sceneItemId else find_source rest name

/-- `BitrateMonitor._get_source_id`.  `items` is the environment's
`GetSceneItemList` reply (`none` models the OBS call raising).  A `none`
result models the method raising (source not found, or call error); in both
raising paths the error is logged and the cache is left unset. -/
def get_source_id (cfg : Config) (m : Msgs) (s : MonitorState)
    (items : Option (List SceneItem)) : Option Int × MonitorState × List Effect :=
  match s.source_id with
  | some id => (some id, s, [])
  | none =>
    match items with
    | none =>
      (none, s, [Effect.getSceneItemList cfg.SCENE_NAME,
                 Effect.log .error m.source_id_error])
    | some its =>
      match find_source its cfg.SOURCE_NAME with
      | some id =>
        (some id, { s with source_id := some id }, [Effect.getSceneItemList cfg.SCENE_NAME])
      | none =>
        (none, s, [Effect.getSceneItemList cfg.SCENE_NAME,
                   Effect.log .error m.source_id_error])

/-- `BitrateMonitor._toggle_warning`: resolve the source id and issue the
`SetSceneItemEnabled` call; any failure is logged and swallowed. -/
def toggle_warning (cfg : Config) (m : Msgs) (s : MonitorState)
    (items : Option (List SceneItem)) (visible : Bool) : MonitorState × List Effect :=
  let r := get_source_id cfg m s items
  match r.1 with
  | some id => (r.2.1, r.2.2 ++ [Effect.setSceneItemEnabled cfg.SCENE_NAME id visible])
  | none => (r.2.1, r.2.2 ++ [Effect.log .error m.toggle_error])

/-- `BitrateMonitor._handle_low_bitrate`.  `now` is `time.time()` at the call. -/
def handle_low_bitrate (cfg : Config) (m : Msgs) (now : Int)
    (bitrate rtt : Int) (s : MonitorState) (items : Option (List SceneItem)) :
    MonitorState × List Effect :=
  if now - s.last_sent_time ≥ cfg.COOLDOWN_SECONDS ∧ ¬ s.warning_active then
    let s1 := { s with warning_active := true }
    let warning_reason : List String :=
      (if bitrate < cfg.BITRATE_THRESHOLD then [m.low_bitrate_reason bitrate] else [])
        ++ (if rtt > cfg.RTT_THRESHOLD then [m.high_rtt_reason rtt] else [])
    let warning_msg := String.intercalate " / " warning_reason
    let r := toggle_warning cfg m s1 items true
    ({ r.1 with last_sent_time := now },
     Effect.log .warning (m.quality_warning warning_msg cfg.COOLDOWN_SECONDS cfg.SOURCE_NAME)
       :: (r.2 ++ [Effect.scheduleHide cfg.SOURCE_DISPLAY_TIME]))
  else
    (s, [])

/-- The body of the `hide_warning` thread spawned by `_handle_low_bitrate`,
after its `time.sleep(SOURCE_DISPLAY_TIME)` elapses. -/
def hide_warning_run (cfg : Config) (m : Msgs) (s : MonitorState)
    (items : Option (List SceneItem)) : MonitorState × List Effect :=
  let r := toggle_warning cfg m s items false
  ({ r.1 with warning_active := false },
   r.2 ++ [Effect.log .info (m.quality_warning_ended cfg.SOURCE_NAME)])

/-- `BitrateMonitor._handle_initial_period`. -/
def handle_initial_period (m : Msgs) (s : MonitorState) : MonitorState × List Effect :=
  ({ s with ignore_count := 1 }, [Effect.log .info m.stream_detected])

/-- Environment inputs consumed by one iteration of `BitrateMonitor.run`. -/
structure TickInput where
  obsAlive : Bool
  connectOk : Bool
  fetch : FetchInput
  items : Option (List SceneItem)
  now : Int
deriving DecidableEq, Repr

/-- One iteration of the `while True` loop of `BitrateMonitor.run`. -/
def tick (cfg : Config) (m : Msgs) (s : MonitorState) (i : TickInput) :
    MonitorState × List Effect :=
  let r1 := ensure_obs_connection cfg m s i.obsAlive i.connectOk
  if ¬ r1.1 then
    (r1.2.1, r1.2.2 ++ [Effect.sleep (get_retry_delay (r1.2.1.obs_retry_count - 1))])
  else
    let r2 := fetch_bitrate cfg m r1.2.1 i.fetch
    let bitrate := r2.1.1
    let rtt := r2.1.2.1
    let server_connected := r2.1.2.2
    let s2 := r2.2.1
    let e12 := r1.2.2 ++ r2.2.2
    if ¬ server_connected then
      (s2, e12 ++ [Effect.sleep (get_retry_delay (s2.server_retry_count - 1))])
    else if s2.ignore_count = 0 ∧ bitrate.isSome then
      let r3 := handle_initial_period m s2
      ({ r3.1 with initial_wait_start := some i.now },
       e12 ++ r3.2 ++ [Effect.sleep 2])
    else
      match s2.initial_wait_start with
      | some t0 =>
        if i.now - t0 ≥ 15 then
          ({ s2 with initial_wait_start := none }, e12)
        else
          (s2, e12)
      | none =>
        match bitrate with
        | some b =>
          if b < cfg.BITRATE_THRESHOLD ∨ rtt.getD 0 > cfg.RTT_THRESHOLD then
            let r3 := handle_low_bitrate cfg m i.now b (rtt.getD 0) s2 i.items
            (r3.1, e12 ++ r3.2 ++ [Effect.sleep 2])
          else
            (s2, e12 ++ [Effect.sleep 2])
        | none =>
          (s2, e12 ++ [Effect.sleep 2])

/-- Effect classifiers used to observe the external behaviour of a tick. -/
def isOverlayCall : Effect → Bool
  | .setSceneItemEnabled _ _ _ => true
  | _ => false

def isScheduleHide : Effect → Bool
  | .scheduleHide _ => true
  | _ => false

def isEnumerate : Effect → Bool
  | .getSceneItemList _ => true
  | _ => false

def isSleep : Effect → Bool
  | .sleep _ => true
  | _ => false

/-- Number of warnings raised in an effect list: each raise schedules exactly
one deferred hide, so `scheduleHide` effects count raises. -/
def raiseCount (es : List Effect) : Nat := es.countP isScheduleHide

/-- A step of the whole process: either one poll-loop iteration, or the
expiry of an outstanding deferred-hide thread. -/
inductive StepInput where
  | tickI (i : TickInput)
  | hideI (items : Option (List SceneItem))
deriving DecidableEq, Repr

def step_run (cfg : Config) (m : Msgs) (s : MonitorState) :
    StepInput → MonitorState × List Effect
  | .tickI i => tick cfg m s i
  | .hideI items => hide_warning_run cfg m s items

/-- Run a sequence of steps, accumulating the effects in order. -/
def run_trace (cfg : Config) (m : Msgs) :
    MonitorState → List StepInput → MonitorState × List Effect
  | s, [] => (s, [])
  | s, i :: rest =>
    let r := step_run cfg m s i
    let rr := run_trace cfg m r.1 rest
    (rr.1, r.2 ++ rr.2)

/-- Reachability relation between monitor states: one poll iteration or one
deferred-hide expiry. -/
inductive Step (cfg : Config) (m : Msgs) : MonitorState → MonitorState → Prop
  | tick (s : MonitorState) (i : TickInput) : Step cfg m s (tick cfg m s i).1
  | hide (s : MonitorState) (items : Option (List SceneItem)) :
      Step cfg m s (hide_warning_run cfg m s items).1

/-- States reachable from process start: `__init__` sets the fields of
`initFields` and performs one `connect_to_obs` (whose outcome `ok` the
environment chooses), then `run` iterates. -/
def Reachable (cfg : Config) (m : Msgs) (s : MonitorState) : Prop :=
  ∃ ok : Bool,
    Relation.ReflTransGen (Step cfg m) (connect_to_obs cfg m initFields ok).2.1 s

/-- Erase the locale-dependent text of a log effect, keeping everything else. -/
def stripLog : Effect → Effect
  | .log lvl _ => .log lvl ""
  | e => e

/-! Concrete configuration, states and inputs for the scenario parts of the
claims (spec §8: BITRATE_THRESHOLD 1000, RTT_THRESHOLD 100, COOLDOWN 30,
DISPLAY 5). -/

def cfg0 : Config where
  STATS_URL := "http://srt.example/stats"
  PUBLISHER := "pub"
  OBS_HOST := "localhost"
  OBS_PORT := 4455
  OBS_PASSWORD := "pw"
  SOURCE_NAME := "warn"
  SCENE_NAME := "scene"
  BITRATE_THRESHOLD := 1000
  RTT_THRESHOLD := 100
  COOLDOWN_SECONDS := 30
  SOURCE_DISPLAY_TIME := 5

/-- Steady state: connected, grace long over, overlay id cached. -/
def s0 : MonitorState :=
  { initFields with hasWs := true, is_connected := true, server_connected := true,
                    ignore_count := 1, source_id := some 7 }

/-- A poll-tick input at time `t` whose fetch reports bitrate `b`, rtt 50. -/
def tIn (t b : Int) : TickInput where
  obsAlive := true
  connectOk := true
  fetch := .ok (some b) (some 50)
  items := some []
  now := t

/-- Steady state during startup grace (grace started at time 0). -/
def sGrace : MonitorState := { s0 with initial_wait_start := some 0 }

/-- Steady state with the overlay id not yet resolved. -/
def sNoCache : MonitorState := { s0 with source_id := none }

/-- A scene item list that does not contain `cfg0.SOURCE_NAME`. -/
def itemsOther : List SceneItem := [{ sourceName := "other", sceneItemId := 3 }]

/-- Iterated OBS connect failures (each failed `connect_to_obs` attempt). -/
def connect_fail_iter (cfg : Config) (m : Msgs) : Nat → MonitorState → MonitorState
  | 0, s => s
  | n + 1, s => connect_fail_iter cfg m n (connect_to_obs cfg m s false).2.1

/-- Iterated stats fetch failures (each failed `_fetch_bitrate` request). -/
def fetch_fail_iter (cfg : Config) (m : Msgs) : Nat → MonitorState → MonitorState
  | 0, s => s
  | n + 1, s => fetch_fail_iter cfg m n (fetch_bitrate cfg m s .fail).2.1

/-- The poll input used for the C5 counterexample: healthy connection, fetch
succeeds with bitrate 500, 5 seconds after grace started. -/
def iGrace : TickInput where
  obsAlive := true
  connectOk := true
  fetch := .ok (some 500) (some 50)
  items := some []
  now := 5

/-! Field-preservation lemmas for the individual methods. -/

theorem connect_to_obs_fields (cfg : Config) (m : Msgs) (s : MonitorState) (ok : Bool) :
    (connect_to_obs cfg m s ok).2.1.ignore_count = s.ignore_count ∧
    (connect_to_obs cfg m s ok).2.1.warning_active = s.warning_active ∧
    (connect_to_obs cfg m s ok).2.1.last_sent_time = s.last_sent_time ∧
    (connect_to_obs cfg m s ok).2.1.server_connected = s.server_connected ∧
    (connect_to_obs cfg m s ok).2.1.server_retry_count = s.server_retry_count ∧
    (connect_to_obs cfg m s ok).2.1.initial_wait_start = s.initial_wait_start ∧
    (connect_to_obs cfg m s ok).2.1.bitrate_none_logged = s.bitrate_none_logged := by
  simp only [connect_to_obs]
  split_ifs <;> simp

theorem ensure_obs_connection_fields (cfg : Config) (m : Msgs) (s : MonitorState)
    (alive ok : Bool) :
    (ensure_obs_connection cfg m s alive ok).2.1.ignore_count = s.ignore_count ∧
    (ensure_obs_connection cfg m s alive ok).2.1.warning_active = s.warning_active ∧
    (ensure_obs_connection cfg m s alive ok).2.1.last_sent_time = s.last_sent_time ∧
    (ensure_obs_connection cfg m s alive ok).2.1.server_connected = s.server_connected ∧
    (ensure_obs_connection cfg m s alive ok).2.1.server_retry_count = s.server_retry_count ∧
    (ensure_obs_connection cfg m s alive ok).2.1.initial_wait_start = s.initial_wait_start ∧
    (ensure_obs_connection cfg m s alive ok).2.1.bitrate_none_logged = s.bitrate_none_logged := by
  simp only [ensure_obs_connection]
  split_ifs with h1 h2 <;>
    simp [connect_to_obs_fields]

theorem fetch_bitrate_fields (cfg : Config) (m : Msgs) (s : MonitorState) (r : FetchInput) :
    (fetch_bitrate cfg m s r).2.1.ignore_count = s.ignore_count ∧
    (fetch_bitrate cfg m s r).2.1.warning_active = s.warning_active ∧
    (fetch_bitrate cfg m s r).2.1.last_sent_time = s.last_sent_time ∧
    (fetch_bitrate cfg m s r).2.1.initial_wait_start = s.initial_wait_start ∧
    (fetch_bitrate cfg m s r).2.1.source_id = s.source_id ∧
    (fetch_bitrate cfg m s r).2.1.hasWs = s.hasWs ∧
    (fetch_bitrate cfg m s r).2.1.is_connected = s.is_connected ∧
    (fetch_bitrate cfg m s r).2.1.obs_retry_count = s.obs_retry_count := by
  cases r <;> simp only [fetch_bitrate] <;> (try split_ifs) <;> simp

theorem get_source_id_fields (cfg : Config) (m : Msgs) (s : MonitorState)
    (items : Option (List SceneItem)) :
    (get_source_id cfg m s items).2.1.ignore_count = s.ignore_count ∧
    (get_source_id cfg m s items).2.1.warning_active = s.warning_active ∧
    (get_source_id cfg m s items).2.1.last_sent_time = s.last_sent_time ∧
    (get_source_id cfg m s items).2.1.server_retry_count = s.server_retry_count ∧
    (get_source_id cfg m s items).2.1.initial_wait_start = s.initial_wait_start := by
  simp only [get_source_id]
  cases h : s.source_id <;> cases items <;> simp
  case none.some its =>
    cases find_source its cfg.SOURCE_NAME <;> simp

theorem toggle_warning_fields (cfg : Config) (m : Msgs) (s : MonitorState)
    (items : Option (List SceneItem)) (visible : Bool) :
    (toggle_warning cfg m s items visible).1.ignore_count = s.ignore_count ∧
    (toggle_warning cfg m s items visible).1.warning_active = s.warning_active ∧
    (toggle_warning cfg m s items visible).1.last_sent_time = s.last_sent_time ∧
    (toggle_warning cfg m s items visible).1.server_retry_count = s.server_retry_count ∧
    (toggle_warning cfg m s items visible).1.initial_wait_start = s.initial_wait_start := by
  simp only [toggle_warning]
  cases h : (get_source_id cfg m s items).1 <;>
    simp [get_source_id_fields]

theorem handle_low_bitrate_ignore (cfg : Config) (m : Msgs) (now bitrate rtt : Int)
    (s : MonitorState) (items : Option (List SceneItem)) :
    (handle_low_bitrate cfg m now bitrate rtt s items).1.ignore_count = s.ignore_count ∧
    (handle_low_bitrate cfg m now bitrate rtt s items).1.initial_wait_start
      = s.initial_wait_start := by
  simp only [handle_low_bitrate]
  split_ifs <;> simp [toggle_warning_fields]

theorem hide_warning_run_fields (cfg : Config) (m : Msgs) (s : MonitorState)
    (items : Option (List SceneItem)) :
    (hide_warning_run cfg m s items).1.ignore_count = s.ignore_count ∧
    (hide_warning_run cfg m s items).1.last_sent_time = s.last_sent_time ∧
    (hide_warning_run cfg m s items).1.initial_wait_start = s.initial_wait_start ∧
    (hide_warning_run cfg m s items).1.warning_active = false := by
  simp only [hide_warning_run]
  simp [toggle_warning_fields]

/-! Effect-count lemmas: which external calls each method can perform. -/

theorem connect_to_obs_counts (cfg : Config) (m : Msgs) (s : MonitorState) (ok : Bool) :
    (connect_to_obs cfg m s ok).2.2.countP isScheduleHide = 0 ∧
    (connect_to_obs cfg m s ok).2.2.countP isOverlayCall = 0 ∧
    (connect_to_obs cfg m s ok).2.2.countP isEnumerate = 0 ∧
    (connect_to_obs cfg m s ok).2.2.countP isSleep = 0 := by
  simp only [connect_to_obs]
  split_ifs <;>
    simp [List.countP_append, List.countP_cons, isScheduleHide, isOverlayCall,
      isEnumerate, isSleep]

theorem ensure_obs_connection_counts (cfg : Config) (m : Msgs) (s : MonitorState)
    (alive ok : Bool) :
    (ensure_obs_connection cfg m s alive ok).2.2.countP isScheduleHide = 0 ∧
    (ensure_obs_connection cfg m s alive ok).2.2.countP isOverlayCall = 0 ∧
    (ensure_obs_connection cfg m s alive ok).2.2.countP isEnumerate = 0 ∧
    (ensure_obs_connection cfg m s alive ok).2.2.countP isSleep = 0 := by
  simp only [ensure_obs_connection]
  split_ifs <;>
    simp [List.countP_append, List.countP_cons, isScheduleHide, isOverlayCall,
      isEnumerate, isSleep, connect_to_obs_counts]

theorem fetch_bitrate_counts (cfg : Config) (m : Msgs) (s : MonitorState) (r : FetchInput) :
    (fetch_bitrate cfg m s r).2.2.countP isScheduleHide = 0 ∧
    (fetch_bitrate cfg m s r).2.2.countP isOverlayCall = 0 ∧
    (fetch_bitrate cfg m s r).2.2.countP isEnumerate = 0 ∧
    (fetch_bitrate cfg m s r).2.2.countP isSleep = 0 := by
  cases r <;> simp only [fetch_bitrate] <;> (try split_ifs) <;>
    simp [List.countP_append, List.countP_cons, isScheduleHide, isOverlayCall,
      isEnumerate, isSleep]

theorem get_source_id_counts (cfg : Config) (m : Msgs) (s : MonitorState)
    (items : Option (List SceneItem)) :
    (get_source_id cfg m s items).2.2.countP isScheduleHide = 0 ∧
    (get_source_id cfg m s items).2.2.countP isOverlayCall = 0 ∧
    (get_source_id cfg m s items).2.2.countP isSleep = 0 ∧
    (get_source_id cfg m s items).2.2.countP isEnumerate
      = (if s.source_id.isSome then 0 else 1) := by
  simp only [get_source_id]
  cases h : s.source_id <;> cases items <;> simp [isScheduleHide, isOverlayCall,
    isEnumerate, isSleep, List.countP_cons]
  case none.some its =>
    cases find_source its cfg.SOURCE_NAME <;>
      simp [isScheduleHide, isOverlayCall, isEnumerate, isSleep, List.countP_cons]

theorem toggle_warning_counts (cfg : Config) (m : Msgs) (s : MonitorState)
    (items : Option (List SceneItem)) (visible : Bool) :
    (toggle_warning cfg m s items visible).2.countP isScheduleHide = 0 ∧
    (toggle_warning cfg m s items visible).2.countP isSleep = 0 ∧
    (toggle_warning cfg m s items visible).2.countP isOverlayCall ≤ 1 ∧
    (toggle_warning cfg m s items visible).2.countP isEnumerate ≤ 1 := by
  simp only [toggle_warning]
  cases h : (get_source_id cfg m s items).1 <;>
    simp [List.countP_append, List.countP_cons, isScheduleHide, isOverlayCall,
      isEnumerate, isSleep, get_source_id_counts] <;>
    split_ifs <;> simp

theorem handle_low_bitrate_counts (cfg : Config) (m : Msgs) (now bitrate rtt : Int)
    (s : MonitorState) (items : Option (List SceneItem)) :
    (handle_low_bitrate cfg m now bitrate rtt s items).2.countP isScheduleHide
      = (if now - s.last_sent_time ≥ cfg.COOLDOWN_SECONDS ∧ ¬ s.warning_active
         then 1 else 0) ∧
    (handle_low_bitrate cfg m now bitrate rtt s items).2.countP isSleep = 0 := by
  simp only [handle_low_bitrate]
  split_ifs with h <;>
    simp [List.countP_append, List.countP_cons, isScheduleHide, isSleep,
      toggle_warning_counts]

theorem hide_warning_run_counts (cfg : Config) (m : Msgs) (s : MonitorState)
    (items : Option (List SceneItem)) :
    (hide_warning_run cfg m s items).2.countP isScheduleHide = 0 ∧
    (hide_warning_run cfg m s items).2.countP isSleep = 0 := by
  simp only [hide_warning_run]
  simp [List.countP_append, List.countP_cons, isScheduleHide, isSleep,
    toggle_warning_counts]

theorem tick_ignore (cfg : Config) (m : Msgs) (s : MonitorState) (i : TickInput) :
    s.ignore_count ≤ (tick cfg m s i).1.ignore_count ∧
    (tick cfg m s i).1.ignore_count ≤ max 1 s.ignore_count := by
  obtain ⟨hE1, hE2, hE3, hE4, hE5, hE6, hE7⟩ :=
    ensure_obs_connection_fields cfg m s i.obsAlive i.connectOk
  obtain ⟨hF1, hF2, hF3, hF4, hF5, hF6, hF7, hF8⟩ :=
    fetch_bitrate_fields cfg m
      (ensure_obs_connection cfg m s i.obsAlive i.connectOk).2.1 i.fetch
  have hH : ∀ b r, (handle_low_bitrate cfg m i.now b r
      (fetch_bitrate cfg m (ensure_obs_connection cfg m s i.obsAlive i.connectOk).2.1
        i.fetch).2.1 i.items).1.ignore_count
      = (fetch_bitrate cfg m (ensure_obs_connection cfg m s i.obsAlive i.connectOk).2.1
        i.fetch).2.1.ignore_count :=
    fun b r => (handle_low_bitrate_ignore cfg m i.now b r _ i.items).1
  by_cases h1 : (ensure_obs_connection cfg m s i.obsAlive i.connectOk).1 = true
  · by_cases h2 : (fetch_bitrate cfg m
        (ensure_obs_connection cfg m s i.obsAlive i.connectOk).2.1 i.fetch).1.2.2 = true
    · rcases hb : (fetch_bitrate cfg m
          (ensure_obs_connection cfg m s i.obsAlive i.connectOk).2.1 i.fetch).1.1 with _ | b
      · rcases hw : s.initial_wait_start with _ | t0
        · simp [tick, h1, h2, hb, hw, hE1, hE6, hF1, hF4]
        · by_cases h15 : i.now - t0 ≥ 15 <;>
            simp [tick, h1, h2, hb, hw, h15, hE1, hE6, hF1, hF4]
      · by_cases h0 : s.ignore_count = 0
        · simp [tick, handle_initial_period, h1, h2, hb, h0, hE1, hF1]
        · rcases hw : s.initial_wait_start with _ | t0
          · by_cases hth : b < cfg.BITRATE_THRESHOLD ∨
                cfg.RTT_THRESHOLD < (fetch_bitrate cfg m
                  (ensure_obs_connection cfg m s i.obsAlive i.connectOk).2.1
                  i.fetch).1.2.1.getD 0 <;>
              simp [tick, h1, h2, hb, h0, hw, hth, hE1, hE6, hF1, hF4, hH]
          · by_cases h15 : i.now - t0 ≥ 15 <;>
              simp [tick, h1, h2, hb, h0, hw, h15, hE1, hE6, hF1, hF4]
    · simp [tick, h1, h2, hE1, hF1]; try omega
  · simp [tick, h1, hE1]

theorem step_ignore (cfg : Config) (m : Msgs) {s s' : MonitorState}
    (h : Step cfg m s s') :
    s.ignore_count ≤ s'.ignore_count ∧ s'.ignore_count ≤ max 1 s.ignore_count := by
  cases h with
  | tick i => exact tick_ignore cfg m s i
  | hide items =>
    constructor <;> simp [(hide_warning_run_fields cfg m s items).1]

theorem steps_ignore_mono (cfg : Config) (m : Msgs) {s s' : MonitorState}
    (h : Relation.ReflTransGen (Step cfg m) s s') :
    s.ignore_count ≤ s'.ignore_count := by
  induction h with
  | refl => exact le_rfl
  | tail hst hstep ih => exact le_trans ih (step_ignore cfg m hstep).1

theorem steps_ignore_bound (cfg : Config) (m : Msgs) {s s' : MonitorState}
    (h : Relation.ReflTransGen (Step cfg m) s s') (hs : s.ignore_count ≤ 1) :
    s'.ignore_count ≤ 1 := by
  induction h with
  | refl => exact hs
  | tail hst hstep ih =>
    have := (step_ignore cfg m hstep).2
    omega

theorem connect_fail_iter_retry (cfg : Config) (m : Msgs) (n : Nat) (s : MonitorState) :
    (connect_fail_iter cfg m n s).obs_retry_count = s.obs_retry_count + n := by
  induction n generalizing s with
  | zero => simp [connect_fail_iter]
  | succ k ih =>
    have : (connect_to_obs cfg m s false).2.1.obs_retry_count = s.obs_retry_count + 1 := by
      simp [connect_to_obs]
    simp [connect_fail_iter, ih, this]
    omega

theorem fetch_fail_iter_retry (cfg : Config) (m : Msgs) (n : Nat) (s : MonitorState) :
    (fetch_fail_iter cfg m n s).server_retry_count = s.server_retry_count + n := by
  induction n generalizing s with
  | zero => simp [fetch_fail_iter]
  | succ k ih =>
    have : (fetch_bitrate cfg m s .fail).2.1.server_retry_count
        = s.server_retry_count + 1 := by
      simp [fetch_bitrate]
    simp [fetch_fail_iter, ih, this]
    omega

theorem fetch_fail_iter_disconnected (cfg : Config) (m : Msgs) (n : Nat) (s : MonitorState) :
    (fetch_fail_iter cfg m (n + 1) s).server_connected = false := by
  induction n generalizing s with
  | zero => simp [fetch_fail_iter, fetch_bitrate]
  | succ k ih =>
    have := ih (fetch_bitrate cfg m s .fail).2.1
    simpa [fetch_fail_iter] using this

theorem fetch_success_retry (cfg : Config) (m : Msgs) (s : MonitorState)
    (b r : Option Int) (h : s.server_connected = false) :
    (fetch_bitrate cfg m s (.ok b r)).2.1.server_retry_count = 0 := by
  simp only [fetch_bitrate]
  simp [h]
  split_ifs <;> simp

/-- C3: the backoff calculator is `min(2 * 2^retryCount, 32)`, with the listed
values, monotone non-decreasing, and never above 32. -/
theorem claim_C3_backoff :
    (∀ n : Nat, get_retry_delay n = min (2 * 2 ^ n) 32) ∧
    get_retry_delay 0 = 2 ∧ get_retry_delay 1 = 4 ∧ get_retry_delay 2 = 8 ∧
    get_retry_delay 3 = 16 ∧ get_retry_delay 4 = 32 ∧ get_retry_delay 5 = 32 ∧
    (∀ n k : Nat, n ≤ k → get_retry_delay n ≤ get_retry_delay k) ∧
    (∀ n : Nat, get_retry_delay n ≤ 32) := by
  refine ⟨fun n => rfl, by decide, by decide, by decide, by decide, by decide, by decide,
    ?_, fun n => min_le_right _ _⟩
  intro n k h
  exact min_le_min
    (Nat.mul_le_mul_left _ (Nat.pow_le_pow_right (by decide) h)) le_rfl

/-- Witness for C3 at n = 1 ≤ k = 3. -/
theorem claim_C3_backoff_witness :
    (1 : Nat) ≤ 3 ∧ get_retry_delay 1 ≤ get_retry_delay 3 :=
  ⟨by decide, claim_C3_backoff.2.2.2.2.2.2.2.1 1 3 (by decide)⟩

/-- C4: the ignore-counter takes only the values 0 and 1 on every reachable
state, and is non-decreasing along every step sequence, so once a tick sets it
to 1 no later reachable state resets it to 0 (a restarted stream never gets a
second grace period). -/
theorem claim_C4_ignore_counter :
    (∀ (cfg : Config) (m : Msgs) (s : MonitorState),
      Reachable cfg m s → s.ignore_count ≤ 1) ∧
    (∀ (cfg : Config) (m : Msgs) (s s' : MonitorState),
      Relation.ReflTransGen (Step cfg m) s s' → s.ignore_count ≤ s'.ignore_count) ∧
    (∀ (cfg : Config) (m : Msgs) (s s' : MonitorState),
      Relation.ReflTransGen (Step cfg m) s s' → s.ignore_count = 1 →
        s'.ignore_count = 1) := by
  refine ⟨?_, fun cfg m s s' h => steps_ignore_mono cfg m h, ?_⟩
  · rintro cfg m s ⟨ok, h⟩
    have h0 : (connect_to_obs cfg m initFields ok).2.1.ignore_count = 0 :=
      (connect_to_obs_fields cfg m initFields ok).1
    exact steps_ignore_bound cfg m h (by omega)
  · intro cfg m s s' h hs
    have h1 := steps_ignore_mono cfg m h
    have h2 := steps_ignore_bound cfg m h (by omega)
    omega

/-- Witness for C4: the freshly initialised monitor is reachable and its
ignore-counter is within bounds; a one-tick step keeps the value 1 at 1. -/
theorem claim_C4_ignore_counter_witness :
    (connect_to_obs cfg0 msgs_en initFields true).2.1.ignore_count ≤ 1 ∧
    (tick cfg0 msgs_en s0 (tIn 100 800)).1.ignore_count = 1 :=
  ⟨claim_C4_ignore_counter.1 cfg0 msgs_en _ ⟨true, Relation.ReflTransGen.refl⟩,
   claim_C4_ignore_counter.2.2 cfg0 msgs_en s0 _
     (Relation.ReflTransGen.single (Step.tick s0 (tIn 100 800))) (by decide)⟩

/-- C6: for both reconnection tracks, N consecutive failures drive the retry
count to N (from a zero start), one success resets it to 0 so the next
failure's backoff is `delay(0) = 2`, and every successful OBS (re)connect also
invalidates the cached overlay source id. -/
theorem claim_C6_retry_reset :
    (∀ (cfg : Config) (m : Msgs) (s : MonitorState),
      (connect_to_obs cfg m s true).2.1.obs_retry_count = 0 ∧
      (connect_to_obs cfg m s true).2.1.source_id = none ∧
      get_retry_delay (connect_to_obs cfg m s true).2.1.obs_retry_count = 2) ∧
    (∀ (cfg : Config) (m : Msgs) (s : MonitorState) (n : Nat),
      (connect_fail_iter cfg m (n + 1) s).obs_retry_count
        = s.obs_retry_count + (n + 1)) ∧
    (∀ (cfg : Config) (m : Msgs) (s : MonitorState) (n : Nat) (b r : Option Int),
      (fetch_fail_iter cfg m (n + 1) s).server_retry_count
        = s.server_retry_count + (n + 1) ∧
      (fetch_bitrate cfg m (fetch_fail_iter cfg m (n + 1) s) (.ok b r)).2.1.server_retry_count
        = 0 ∧
      get_retry_delay
        (fetch_bitrate cfg m (fetch_fail_iter cfg m (n + 1) s)
          (.ok b r)).2.1.server_retry_count = 2) := by
  refine ⟨fun cfg m s => ?_,
    fun cfg m s n => connect_fail_iter_retry cfg m (n + 1) s,
    fun cfg m s n b r => ?_⟩
  · refine ⟨?_, ?_, ?_⟩ <;> simp [connect_to_obs, get_retry_delay]
  · have hd := fetch_fail_iter_disconnected cfg m n s
    have hr := fetch_fail_iter_retry cfg m (n + 1) s
    have h0 := fetch_success_retry cfg m _ b r hd
    exact ⟨hr, h0, by rw [h0]; decide⟩

theorem fetch_ok_triple (cfg : Config) (m : Msgs) (s : MonitorState) (b r : Option Int) :
    (fetch_bitrate cfg m s (.ok b r)).1 = (b, some (r.getD 0), true) := rfl

theorem fetch_fail_triple (cfg : Config) (m : Msgs) (s : MonitorState) :
    (fetch_bitrate cfg m s .fail).1 = (none, none, false) := rfl

theorem handle_low_bitrate_pass (cfg : Config) (m : Msgs) (now b r : Int)
    (s : MonitorState) (items : Option (List SceneItem))
    (h : now - s.last_sent_time ≥ cfg.COOLDOWN_SECONDS ∧ s.warning_active = false) :
    (handle_low_bitrate cfg m now b r s items).1.warning_active = true ∧
    (handle_low_bitrate cfg m now b r s items).1.last_sent_time = now ∧
    raiseCount (handle_low_bitrate cfg m now b r s items).2 = 1 ∧
    Effect.scheduleHide cfg.SOURCE_DISPLAY_TIME
      ∈ (handle_low_bitrate cfg m now b r s items).2 := by
  have hg : now - s.last_sent_time ≥ cfg.COOLDOWN_SECONDS ∧ ¬ s.warning_active = true := by
    simp [h.1, h.2]
  have ht := toggle_warning_fields cfg m { s with warning_active := true } items true
  have hc := toggle_warning_counts cfg m { s with warning_active := true } items true
  simp only [handle_low_bitrate, if_pos hg]
  refine ⟨by simp [ht.2.1], by simp, ?_, by simp⟩
  simp [raiseCount, List.countP_cons, List.countP_append, isScheduleHide, hc.1]

theorem handle_low_bitrate_show (cfg : Config) (m : Msgs) (now b r : Int)
    (s : MonitorState) (items : Option (List SceneItem)) (id : Int)
    (h : now - s.last_sent_time ≥ cfg.COOLDOWN_SECONDS ∧ s.warning_active = false)
    (hid : s.source_id = some id) :
    Effect.setSceneItemEnabled cfg.SCENE_NAME id true
      ∈ (handle_low_bitrate cfg m now b r s items).2 := by
  have hg : now - s.last_sent_time ≥ cfg.COOLDOWN_SECONDS ∧ ¬ s.warning_active = true := by
    simp [h.1, h.2]
  simp only [handle_low_bitrate, if_pos hg]
  simp [toggle_warning, get_source_id, hid]

theorem handle_low_bitrate_fail (cfg : Config) (m : Msgs) (now b r : Int)
    (s : MonitorState) (items : Option (List SceneItem))
    (h : ¬ (now - s.last_sent_time ≥ cfg.COOLDOWN_SECONDS ∧ s.warning_active = false)) :
    handle_low_bitrate cfg m now b r s items = (s, []) := by
  have hg : ¬ (now - s.last_sent_time ≥ cfg.COOLDOWN_SECONDS ∧ ¬ s.warning_active = true) := by
    intro hc
    exact h ⟨hc.1, by simpa using hc.2⟩
  simp only [handle_low_bitrate, if_neg hg]

/-- C1: on a threshold-violating tick outside grace, the low-quality handler
raises (marks active, shows the overlay, schedules the deferred hide, records
`lastRaisedAt = now`) exactly when `(now - lastRaisedAt) ≥ COOLDOWN_SECONDS`
and no warning is active; otherwise it changes nothing and performs no call.
Concretely (COOLDOWN 30, DISPLAY 5): violations 10 s apart raise once,
violations 31 s apart raise twice. -/
theorem claim_C1_cooldown_guard :
    (∀ (cfg : Config) (m : Msgs) (now b r : Int) (s : MonitorState)
        (items : Option (List SceneItem)),
      now - s.last_sent_time ≥ cfg.COOLDOWN_SECONDS → s.warning_active = false →
        (handle_low_bitrate cfg m now b r s items).1.warning_active = true ∧
        (handle_low_bitrate cfg m now b r s items).1.last_sent_time = now ∧
        raiseCount (handle_low_bitrate cfg m now b r s items).2 = 1 ∧
        Effect.scheduleHide cfg.SOURCE_DISPLAY_TIME
          ∈ (handle_low_bitrate cfg m now b r s items).2) ∧
    (∀ (cfg : Config) (m : Msgs) (now b r : Int) (s : MonitorState)
        (items : Option (List SceneItem)) (id : Int),
      now - s.last_sent_time ≥ cfg.COOLDOWN_SECONDS → s.warning_active = false →
      s.source_id = some id →
        Effect.setSceneItemEnabled cfg.SCENE_NAME id true
          ∈ (handle_low_bitrate cfg m now b r s items).2) ∧
    (∀ (cfg : Config) (m : Msgs) (now b r : Int) (s : MonitorState)
        (items : Option (List SceneItem)),
      ¬ (now - s.last_sent_time ≥ cfg.COOLDOWN_SECONDS ∧ s.warning_active = false) →
        handle_low_bitrate cfg m now b r s items = (s, [])) ∧
    raiseCount (run_trace cfg0 msgs_en s0
      [.tickI (tIn 100 800), .hideI (some []), .tickI (tIn 110 800)]).2 = 1 ∧
    raiseCount (run_trace cfg0 msgs_en s0
      [.tickI (tIn 100 800), .hideI (some []), .tickI (tIn 131 800)]).2 = 2 := by
  refine ⟨fun cfg m now b r s items h1 h2 =>
      handle_low_bitrate_pass cfg m now b r s items ⟨h1, h2⟩,
    fun cfg m now b r s items id h1 h2 hid =>
      handle_low_bitrate_show cfg m now b r s items id ⟨h1, h2⟩ hid,
    fun cfg m now b r s items h => handle_low_bitrate_fail cfg m now b r s items h,
    by decide, by decide⟩

/-- Witness for C1 at a concrete guard-passing input. -/
theorem claim_C1_cooldown_guard_witness :
    ((100 : Int) - s0.last_sent_time ≥ cfg0.COOLDOWN_SECONDS ∧ s0.warning_active = false ∧
      s0.source_id = some 7) ∧
    (handle_low_bitrate cfg0 msgs_en 100 800 50 s0 (some [])).1.warning_active = true ∧
    Effect.setSceneItemEnabled cfg0.SCENE_NAME 7 true
      ∈ (handle_low_bitrate cfg0 msgs_en 100 800 50 s0 (some [])).2 :=
  ⟨⟨by decide, by decide, by decide⟩,
   (claim_C1_cooldown_guard.1 cfg0 msgs_en 100 800 50 s0 (some [])
     (by decide) (by decide)).1,
   claim_C1_cooldown_guard.2.1 cfg0 msgs_en 100 800 50 s0 (some []) 7
     (by decide) (by decide) (by decide)⟩

theorem tick_detect (cfg : Config) (m : Msgs) (s : MonitorState) (i : TickInput)
    (b : Int) (r : Option Int)
    (h1 : (ensure_obs_connection cfg m s i.obsAlive i.connectOk).1 = true)
    (hf : i.fetch = .ok (some b) r) (h0 : s.ignore_count = 0) :
    (tick cfg m s i).1.initial_wait_start = some i.now ∧
    (tick cfg m s i).1.ignore_count = 1 ∧
    (tick cfg m s i).1.warning_active = s.warning_active ∧
    (tick cfg m s i).1.last_sent_time = s.last_sent_time ∧
    raiseCount (tick cfg m s i).2 = 0 ∧
    (tick cfg m s i).2.countP isOverlayCall = 0 ∧
    (tick cfg m s i).2.getLast? = some (Effect.sleep 2) := by
  obtain ⟨hE1, hE2, hE3, hE4, hE5, hE6, hE7⟩ :=
    ensure_obs_connection_fields cfg m s i.obsAlive i.connectOk
  obtain ⟨hF1, hF2, hF3, hF4, hF5, hF6, hF7, hF8⟩ :=
    fetch_bitrate_fields cfg m
      (ensure_obs_connection cfg m s i.obsAlive i.connectOk).2.1 (.ok (some b) r)
  obtain ⟨hEc1, hEc2, hEc3, hEc4⟩ :=
    ensure_obs_connection_counts cfg m s i.obsAlive i.connectOk
  obtain ⟨hFc1, hFc2, hFc3, hFc4⟩ :=
    fetch_bitrate_counts cfg m
      (ensure_obs_connection cfg m s i.obsAlive i.connectOk).2.1 (.ok (some b) r)
  simp [-List.countP_eq_zero, tick, handle_initial_period, h1, hf, fetch_ok_triple, h0,
    hE1, hE2, hE3, hF1, hF2, hF3, raiseCount, List.countP_append, List.countP_cons,
    isScheduleHide, isOverlayCall, List.getLast?_concat, hEc1, hEc2, hFc1, hFc2]

theorem tick_grace_hold (cfg : Config) (m : Msgs) (s : MonitorState) (i : TickInput)
    (b r : Option Int) (t0 : Int)
    (h1 : (ensure_obs_connection cfg m s i.obsAlive i.connectOk).1 = true)
    (hf : i.fetch = .ok b r) (h0 : ¬ (s.ignore_count = 0 ∧ b.isSome = true))
    (hw : s.initial_wait_start = some t0) (h15 : i.now - t0 < 15) :
    (tick cfg m s i).1.initial_wait_start = some t0 ∧
    (tick cfg m s i).1.warning_active = s.warning_active ∧
    (tick cfg m s i).1.last_sent_time = s.last_sent_time ∧
    raiseCount (tick cfg m s i).2 = 0 ∧
    (tick cfg m s i).2.countP isOverlayCall = 0 ∧
    (tick cfg m s i).2.countP isSleep = 0 ∧
    (tick cfg m s i).2.countP isEnumerate = 0 := by
  obtain ⟨hE1, hE2, hE3, hE4, hE5, hE6, hE7⟩ :=
    ensure_obs_connection_fields cfg m s i.obsAlive i.connectOk
  obtain ⟨hF1, hF2, hF3, hF4, hF5, hF6, hF7, hF8⟩ :=
    fetch_bitrate_fields cfg m
      (ensure_obs_connection cfg m s i.obsAlive i.connectOk).2.1 (.ok b r)
  obtain ⟨hEc1, hEc2, hEc3, hEc4⟩ :=
    ensure_obs_connection_counts cfg m s i.obsAlive i.connectOk
  obtain ⟨hFc1, hFc2, hFc3, hFc4⟩ :=
    fetch_bitrate_counts cfg m
      (ensure_obs_connection cfg m s i.obsAlive i.connectOk).2.1 (.ok b r)
  have h15n : ¬ 15 ≤ i.now - t0 := by omega
  simp [-List.countP_eq_zero, tick, h1, hf, fetch_ok_triple, h0, hw, h15n,
    hE1, hE2, hE3, hE6, hF1, hF2, hF3, hF4, raiseCount, List.countP_append,
    List.countP_cons, isScheduleHide, isOverlayCall, isSleep, isEnumerate,
    hEc1, hEc2, hEc3, hEc4, hFc1, hFc2, hFc3, hFc4]

theorem tick_grace_exit (cfg : Config) (m : Msgs) (s : MonitorState) (i : TickInput)
    (b r : Option Int) (t0 : Int)
    (h1 : (ensure_obs_connection cfg m s i.obsAlive i.connectOk).1 = true)
    (hf : i.fetch = .ok b r) (h0 : ¬ (s.ignore_count = 0 ∧ b.isSome = true))
    (hw : s.initial_wait_start = some t0) (h15 : i.now - t0 ≥ 15) :
    (tick cfg m s i).1.initial_wait_start = none ∧
    (tick cfg m s i).1.warning_active = s.warning_active ∧
    (tick cfg m s i).1.last_sent_time = s.last_sent_time ∧
    raiseCount (tick cfg m s i).2 = 0 ∧
    (tick cfg m s i).2.countP isOverlayCall = 0 ∧
    (tick cfg m s i).2.countP isSleep = 0 ∧
    (tick cfg m s i).2.countP isEnumerate = 0 := by
  obtain ⟨hE1, hE2, hE3, hE4, hE5, hE6, hE7⟩ :=
    ensure_obs_connection_fields cfg m s i.obsAlive i.connectOk
  obtain ⟨hF1, hF2, hF3, hF4, hF5, hF6, hF7, hF8⟩ :=
    fetch_bitrate_fields cfg m
      (ensure_obs_connection cfg m s i.obsAlive i.connectOk).2.1 (.ok b r)
  obtain ⟨hEc1, hEc2, hEc3, hEc4⟩ :=
    ensure_obs_connection_counts cfg m s i.obsAlive i.connectOk
  obtain ⟨hFc1, hFc2, hFc3, hFc4⟩ :=
    fetch_bitrate_counts cfg m
      (ensure_obs_connection cfg m s i.obsAlive i.connectOk).2.1 (.ok b r)
  have h15p : 15 ≤ i.now - t0 := h15
  simp [-List.countP_eq_zero, tick, h1, hf, fetch_ok_triple, h0, hw, h15p,
    hE1, hE2, hE3, hE6, hF1, hF2, hF3, hF4, raiseCount, List.countP_append,
    List.countP_cons, isScheduleHide, isOverlayCall, isSleep, isEnumerate,
    hEc1, hEc2, hEc3, hEc4, hFc1, hFc2, hFc3, hFc4]

theorem tick_steady_raise (cfg : Config) (m : Msgs) (s : MonitorState) (i : TickInput)
    (b : Int) (r : Option Int)
    (h1 : (ensure_obs_connection cfg m s i.obsAlive i.connectOk).1 = true)
    (hf : i.fetch = .ok (some b) r) (h0 : s.ignore_count ≠ 0)
    (hw : s.initial_wait_start = none)
    (hth : b < cfg.BITRATE_THRESHOLD ∨ r.getD 0 > cfg.RTT_THRESHOLD)
    (hcd : i.now - s.last_sent_time ≥ cfg.COOLDOWN_SECONDS)
    (hact : s.warning_active = false) :
    (tick cfg m s i).1.warning_active = true ∧
    (tick cfg m s i).1.last_sent_time = i.now ∧
    raiseCount (tick cfg m s i).2 = 1 ∧
    (tick cfg m s i).2.getLast? = some (Effect.sleep 2) := by
  obtain ⟨hE1, hE2, hE3, hE4, hE5, hE6, hE7⟩ :=
    ensure_obs_connection_fields cfg m s i.obsAlive i.connectOk
  obtain ⟨hF1, hF2, hF3, hF4, hF5, hF6, hF7, hF8⟩ :=
    fetch_bitrate_fields cfg m
      (ensure_obs_connection cfg m s i.obsAlive i.connectOk).2.1 (.ok (some b) r)
  obtain ⟨hEc1, hEc2, hEc3, hEc4⟩ :=
    ensure_obs_connection_counts cfg m s i.obsAlive i.connectOk
  obtain ⟨hFc1, hFc2, hFc3, hFc4⟩ :=
    fetch_bitrate_counts cfg m
      (ensure_obs_connection cfg m s i.obsAlive i.connectOk).2.1 (.ok (some b) r)
  have hg : i.now - (fetch_bitrate cfg m
      (ensure_obs_connection cfg m s i.obsAlive i.connectOk).2.1
      (.ok (some b) r)).2.1.last_sent_time ≥ cfg.COOLDOWN_SECONDS ∧
      (fetch_bitrate cfg m (ensure_obs_connection cfg m s i.obsAlive i.connectOk).2.1
        (.ok (some b) r)).2.1.warning_active = false := by
    rw [hF3, hE3, hF2, hE2]
    exact ⟨hcd, hact⟩
  obtain ⟨hp1, hp2, hp3, hp4⟩ := handle_low_bitrate_pass cfg m i.now b (r.getD 0)
    (fetch_bitrate cfg m (ensure_obs_connection cfg m s i.obsAlive i.connectOk).2.1
      (.ok (some b) r)).2.1 i.items hg
  simp [-List.countP_eq_zero, tick, h1, hf, fetch_ok_triple, h0, hw, hth,
    hE1, hE2, hE3, hE6, hF1, hF2, hF3, hF4, raiseCount, List.countP_append,
    hEc1, hFc1, hp1, hp2, List.getLast?_concat]
  simpa [raiseCount] using hp3

theorem tick_steady_quiet (cfg : Config) (m : Msgs) (s : MonitorState) (i : TickInput)
    (b : Int) (r : Option Int)
    (h1 : (ensure_obs_connection cfg m s i.obsAlive i.connectOk).1 = true)
    (hf : i.fetch = .ok (some b) r) (h0 : s.ignore_count ≠ 0)
    (hw : s.initial_wait_start = none)
    (hth : ¬ (b < cfg.BITRATE_THRESHOLD ∨ r.getD 0 > cfg.RTT_THRESHOLD)) :
    (tick cfg m s i).1.warning_active = s.warning_active ∧
    (tick cfg m s i).1.last_sent_time = s.last_sent_time ∧
    raiseCount (tick cfg m s i).2 = 0 ∧
    (tick cfg m s i).2.countP isOverlayCall = 0 ∧
    (tick cfg m s i).2.getLast? = some (Effect.sleep 2) := by
  obtain ⟨hE1, hE2, hE3, hE4, hE5, hE6, hE7⟩ :=
    ensure_obs_connection_fields cfg m s i.obsAlive i.connectOk
  obtain ⟨hF1, hF2, hF3, hF4, hF5, hF6, hF7, hF8⟩ :=
    fetch_bitrate_fields cfg m
      (ensure_obs_connection cfg m s i.obsAlive i.connectOk).2.1 (.ok (some b) r)
  obtain ⟨hEc1, hEc2, hEc3, hEc4⟩ :=
    ensure_obs_connection_counts cfg m s i.obsAlive i.connectOk
  obtain ⟨hFc1, hFc2, hFc3, hFc4⟩ :=
    fetch_bitrate_counts cfg m
      (ensure_obs_connection cfg m s i.obsAlive i.connectOk).2.1 (.ok (some b) r)
  simp [-List.countP_eq_zero, tick, h1, hf, fetch_ok_triple, h0, hw, hth,
    hE1, hE2, hE3, hE6, hF1, hF2, hF3, hF4, raiseCount, List.countP_append,
    List.countP_cons, isScheduleHide, isOverlayCall,
    hEc1, hEc2, hFc1, hFc2, List.getLast?_concat]

theorem tick_absent (cfg : Config) (m : Msgs) (s : MonitorState) (i : TickInput)
    (r : Option Int)
    (h1 : (ensure_obs_connection cfg m s i.obsAlive i.connectOk).1 = true)
    (hf : i.fetch = .ok none r) (hw : s.initial_wait_start = none) :
    (tick cfg m s i).1.warning_active = s.warning_active ∧
    (tick cfg m s i).1.last_sent_time = s.last_sent_time ∧
    raiseCount (tick cfg m s i).2 = 0 ∧
    (tick cfg m s i).2.countP isOverlayCall = 0 ∧
    (tick cfg m s i).2.countP isEnumerate = 0 ∧
    (tick cfg m s i).2.getLast? = some (Effect.sleep 2) := by
  obtain ⟨hE1, hE2, hE3, hE4, hE5, hE6, hE7⟩ :=
    ensure_obs_connection_fields cfg m s i.obsAlive i.connectOk
  obtain ⟨hF1, hF2, hF3, hF4, hF5, hF6, hF7, hF8⟩ :=
    fetch_bitrate_fields cfg m
      (ensure_obs_connection cfg m s i.obsAlive i.connectOk).2.1 (.ok none r)
  obtain ⟨hEc1, hEc2, hEc3, hEc4⟩ :=
    ensure_obs_connection_counts cfg m s i.obsAlive i.connectOk
  obtain ⟨hFc1, hFc2, hFc3, hFc4⟩ :=
    fetch_bitrate_counts cfg m
      (ensure_obs_connection cfg m s i.obsAlive i.connectOk).2.1 (.ok none r)
  simp [-List.countP_eq_zero, tick, h1, hf, fetch_ok_triple, hw,
    hE1, hE2, hE3, hE6, hF1, hF2, hF3, hF4, raiseCount, List.countP_append,
    List.countP_cons, isScheduleHide, isOverlayCall, isEnumerate,
    hEc1, hEc2, hEc3, hFc1, hFc2, hFc3, List.getLast?_concat]

/-- C2: a tick that first detects a stream enters grace and raises nothing; every
in-grace tick (elapsed < 15 s) raises nothing and calls no overlay operation even
when thresholds are violated; the first tick with elapsed ≥ 15 s only clears the
grace marker and still evaluates no thresholds; and a later below-threshold tick
(no cooldown or active warning blocking) does raise a warning. -/
theorem claim_C2_grace_suppression :
    (∀ (cfg : Config) (m : Msgs) (s : MonitorState) (i : TickInput) (b : Int)
        (r : Option Int),
      (ensure_obs_connection cfg m s i.obsAlive i.connectOk).1 = true →
      i.fetch = .ok (some b) r → s.ignore_count = 0 →
        (tick cfg m s i).1.initial_wait_start = some i.now ∧
        raiseCount (tick cfg m s i).2 = 0 ∧
        (tick cfg m s i).2.countP isOverlayCall = 0 ∧
        (tick cfg m s i).1.warning_active = s.warning_active ∧
        (tick cfg m s i).1.last_sent_time = s.last_sent_time) ∧
    (∀ (cfg : Config) (m : Msgs) (s : MonitorState) (i : TickInput)
        (b r : Option Int) (t0 : Int),
      (ensure_obs_connection cfg m s i.obsAlive i.connectOk).1 = true →
      i.fetch = .ok b r → s.ignore_count ≠ 0 → s.initial_wait_start = some t0 →
      i.now - t0 < 15 →
        (tick cfg m s i).1.initial_wait_start = some t0 ∧
        raiseCount (tick cfg m s i).2 = 0 ∧
        (tick cfg m s i).2.countP isOverlayCall = 0 ∧
        (tick cfg m s i).1.warning_active = s.warning_active ∧
        (tick cfg m s i).1.last_sent_time = s.last_sent_time) ∧
    (∀ (cfg : Config) (m : Msgs) (s : MonitorState) (i : TickInput)
        (b r : Option Int) (t0 : Int),
      (ensure_obs_connection cfg m s i.obsAlive i.connectOk).1 = true →
      i.fetch = .ok b r → s.ignore_count ≠ 0 → s.initial_wait_start = some t0 →
      i.now - t0 ≥ 15 →
        (tick cfg m s i).1.initial_wait_start = none ∧
        raiseCount (tick cfg m s i).2 = 0 ∧
        (tick cfg m s i).2.countP isOverlayCall = 0 ∧
        (tick cfg m s i).1.warning_active = s.warning_active ∧
        (tick cfg m s i).1.last_sent_time = s.last_sent_time) ∧
    (∀ (cfg : Config) (m : Msgs) (s : MonitorState) (i : TickInput) (b : Int)
        (r : Option Int),
      (ensure_obs_connection cfg m s i.obsAlive i.connectOk).1 = true →
      i.fetch = .ok (some b) r → s.ignore_count ≠ 0 → s.initial_wait_start = none →
      b < cfg.BITRATE_THRESHOLD →
      i.now - s.last_sent_time ≥ cfg.COOLDOWN_SECONDS → s.warning_active = false →
        raiseCount (tick cfg m s i).2 = 1 ∧
        (tick cfg m s i).1.warning_active = true) := by
  refine ⟨?_, ?_, ?_, ?_⟩
  · intro cfg m s i b r h1 hf h0
    obtain ⟨hd1, hd2, hd3, hd4, hd5, hd6, hd7⟩ := tick_detect cfg m s i b r h1 hf h0
    exact ⟨hd1, hd5, hd6, hd3, hd4⟩
  · intro cfg m s i b r t0 h1 hf h0 hw h15
    obtain ⟨hg1, hg2, hg3, hg4, hg5, hg6, hg7⟩ :=
      tick_grace_hold cfg m s i b r t0 h1 hf (fun hc => h0 hc.1) hw h15
    exact ⟨hg1, hg4, hg5, hg2, hg3⟩
  · intro cfg m s i b r t0 h1 hf h0 hw h15
    obtain ⟨hg1, hg2, hg3, hg4, hg5, hg6, hg7⟩ :=
      tick_grace_exit cfg m s i b r t0 h1 hf (fun hc => h0 hc.1) hw h15
    exact ⟨hg1, hg4, hg5, hg2, hg3⟩
  · intro cfg m s i b r h1 hf h0 hw hb hcd hact
    obtain ⟨hr1, hr2, hr3, hr4⟩ :=
      tick_steady_raise cfg m s i b r h1 hf h0 hw (Or.inl hb) hcd hact
    exact ⟨hr3, hr1⟩

/-- Witness for C2: a grace tick 5 s in with bitrate 500 (below the 1000
threshold) raises nothing; a post-grace tick at t = 100 with bitrate 800
raises. -/
theorem claim_C2_grace_suppression_witness :
    raiseCount (tick cfg0 msgs_en sGrace
      { obsAlive := true, connectOk := true, fetch := .ok (some 500) (some 50),
        items := some [], now := 5 }).2 = 0 ∧
    raiseCount (tick cfg0 msgs_en s0 (tIn 100 800)).2 = 1 :=
  ⟨(claim_C2_grace_suppression.2.1 cfg0 msgs_en sGrace
      { obsAlive := true, connectOk := true, fetch := .ok (some 500) (some 50),
        items := some [], now := 5 } (some 500) (some 50) 0
      (by decide) rfl (by decide) (by decide) (by decide)).2.1,
   (claim_C2_grace_suppression.2.2.2 cfg0 msgs_en s0 (tIn 100 800) 800 (some 50)
      (by decide) rfl (by decide) (by decide) (by decide) (by decide) (by decide)).1⟩

theorem tick_threshold_ends_sleep2 (cfg : Config) (m : Msgs) (s : MonitorState)
    (i : TickInput) (b : Int) (r : Option Int)
    (h1 : (ensure_obs_connection cfg m s i.obsAlive i.connectOk).1 = true)
    (hf : i.fetch = .ok (some b) r) (h0 : s.ignore_count ≠ 0)
    (hw : s.initial_wait_start = none)
    (hth : b < cfg.BITRATE_THRESHOLD ∨ r.getD 0 > cfg.RTT_THRESHOLD) :
    (tick cfg m s i).2.getLast? = some (Effect.sleep 2) := by
  obtain ⟨hE1, hE2, hE3, hE4, hE5, hE6, hE7⟩ :=
    ensure_obs_connection_fields cfg m s i.obsAlive i.connectOk
  obtain ⟨hF1, hF2, hF3, hF4, hF5, hF6, hF7, hF8⟩ :=
    fetch_bitrate_fields cfg m
      (ensure_obs_connection cfg m s i.obsAlive i.connectOk).2.1 (.ok (some b) r)
  simp [tick, h1, hf, fetch_ok_triple, h0, hw, hth, hE1, hE6, hF1, hF4,
    List.getLast?_concat]

theorem tick_ends_sleep2 (cfg : Config) (m : Msgs) (s : MonitorState) (i : TickInput)
    (b r : Option Int)
    (h1 : (ensure_obs_connection cfg m s i.obsAlive i.connectOk).1 = true)
    (hf : i.fetch = .ok b r)
    (hng : (s.ignore_count = 0 ∧ b.isSome = true) ∨ s.initial_wait_start = none) :
    (tick cfg m s i).2.getLast? = some (Effect.sleep 2) := by
  rcases b with _ | bv
  · have hw : s.initial_wait_start = none := by
      rcases hng with ⟨_, hs⟩ | hw
      · simp at hs
      · exact hw
    exact (tick_absent cfg m s i r h1 hf hw).2.2.2.2.2
  · by_cases h0 : s.ignore_count = 0
    · exact (tick_detect cfg m s i bv r h1 hf h0).2.2.2.2.2.2
    · have hw : s.initial_wait_start = none := by
        rcases hng with ⟨ha, _⟩ | hw
        · exact absurd ha h0
        · exact hw
      by_cases hth : bv < cfg.BITRATE_THRESHOLD ∨ r.getD 0 > cfg.RTT_THRESHOLD
      · exact tick_threshold_ends_sleep2 cfg m s i bv r h1 hf h0 hw hth
      · exact (tick_steady_quiet cfg m s i bv r h1 hf h0 hw hth).2.2.2.2

/-- C5 counterexample: an iteration taken while startup grace is active, with
the remote-control connection up and a successful stats fetch, performs no
sleep at all — refuting the claim that every such iteration ends with a
2-second sleep. -/
theorem claim_C5_counterexample :
    (ensure_obs_connection cfg0 msgs_en sGrace iGrace.obsAlive iGrace.connectOk).1 = true ∧
    iGrace.fetch = FetchInput.ok (some 500) (some 50) ∧
    sGrace.initial_wait_start = some 0 ∧
    (tick cfg0 msgs_en sGrace iGrace).2.countP isSleep = 0 := by decide

/-- C5 (amended): every successful-fetch iteration that does not take the
grace-wait branch ends with the fixed 2-second sleep; iterations taken while
grace is active (or that clear the grace marker) restart the loop immediately
and perform no sleep at all. -/
theorem claim_C5_poll_period :
    (∀ (cfg : Config) (m : Msgs) (s : MonitorState) (i : TickInput) (b r : Option Int),
      (ensure_obs_connection cfg m s i.obsAlive i.connectOk).1 = true →
      i.fetch = .ok b r →
      (s.ignore_count = 0 ∧ b.isSome = true) ∨ s.initial_wait_start = none →
        (tick cfg m s i).2.getLast? = some (Effect.sleep 2)) ∧
    (∀ (cfg : Config) (m : Msgs) (s : MonitorState) (i : TickInput) (b r : Option Int)
        (t0 : Int),
      (ensure_obs_connection cfg m s i.obsAlive i.connectOk).1 = true →
      i.fetch = .ok b r → ¬ (s.ignore_count = 0 ∧ b.isSome = true) →
      s.initial_wait_start = some t0 →
        (tick cfg m s i).2.countP isSleep = 0) := by
  refine ⟨fun cfg m s i b r h1 hf hng => tick_ends_sleep2 cfg m s i b r h1 hf hng, ?_⟩
  intro cfg m s i b r t0 h1 hf hng hw
  by_cases h15 : i.now - t0 ≥ 15
  · exact (tick_grace_exit cfg m s i b r t0 h1 hf hng hw h15).2.2.2.2.2.1
  · exact (tick_grace_hold cfg m s i b r t0 h1 hf hng hw (by omega)).2.2.2.2.2.1

/-- Witness for the amended C5 at a steady-state tick. -/
theorem claim_C5_poll_period_witness :
    (tick cfg0 msgs_en s0 (tIn 100 800)).2.getLast? = some (Effect.sleep 2) :=
  claim_C5_poll_period.1 cfg0 msgs_en s0 (tIn 100 800) (some 800) (some 50)
    (by decide) rfl (Or.inr (by decide))

theorem fetch_absent_retry (cfg : Config) (m : Msgs) (s : MonitorState) (r : Option Int) :
    (fetch_bitrate cfg m s (.ok none r)).2.1.server_retry_count ≤ s.server_retry_count := by
  simp only [fetch_bitrate]
  split_ifs <;> simp

theorem tick_absent_any (cfg : Config) (m : Msgs) (s : MonitorState) (i : TickInput)
    (r : Option Int)
    (h1 : (ensure_obs_connection cfg m s i.obsAlive i.connectOk).1 = true)
    (hf : i.fetch = .ok none r) :
    (tick cfg m s i).1.warning_active = s.warning_active ∧
    (tick cfg m s i).1.last_sent_time = s.last_sent_time ∧
    raiseCount (tick cfg m s i).2 = 0 ∧
    (tick cfg m s i).2.countP isOverlayCall = 0 ∧
    (tick cfg m s i).2.countP isEnumerate = 0 := by
  rcases hw : s.initial_wait_start with _ | t0
  · obtain ⟨a1, a2, a3, a4, a5, a6⟩ := tick_absent cfg m s i r h1 hf hw
    exact ⟨a1, a2, a3, a4, a5⟩
  · have hng : ¬ (s.ignore_count = 0 ∧ (none : Option Int).isSome = true) := by simp
    by_cases h15 : i.now - t0 ≥ 15
    · obtain ⟨g1, g2, g3, g4, g5, g6, g7⟩ :=
        tick_grace_exit cfg m s i none r t0 h1 hf hng hw h15
      exact ⟨g2, g3, g4, g5, g7⟩
    · obtain ⟨g1, g2, g3, g4, g5, g6, g7⟩ :=
        tick_grace_hold cfg m s i none r t0 h1 hf hng hw (by omega)
      exact ⟨g2, g3, g4, g5, g7⟩

/-- C7: a well-formed response without a bitrate for the configured publisher is
classified as success (it does not increment the stats retry count), and the
tick consuming it neither mutates the warning state nor performs any overlay
call. -/
theorem claim_C7_absent_bitrate :
    (∀ (cfg : Config) (m : Msgs) (s : MonitorState) (r : Option Int),
      (fetch_bitrate cfg m s (.ok none r)).1 = (none, some (r.getD 0), true) ∧
      (fetch_bitrate cfg m s (.ok none r)).2.1.server_retry_count
        ≤ s.server_retry_count) ∧
    (∀ (cfg : Config) (m : Msgs) (s : MonitorState) (i : TickInput) (r : Option Int),
      (ensure_obs_connection cfg m s i.obsAlive i.connectOk).1 = true →
      i.fetch = .ok none r →
        (tick cfg m s i).1.warning_active = s.warning_active ∧
        (tick cfg m s i).1.last_sent_time = s.last_sent_time ∧
        raiseCount (tick cfg m s i).2 = 0 ∧
        (tick cfg m s i).2.countP isOverlayCall = 0 ∧
        (tick cfg m s i).2.countP isEnumerate = 0) :=
  ⟨fun cfg m s r => ⟨fetch_ok_triple cfg m s none r, fetch_absent_retry cfg m s r⟩,
   fun cfg m s i r h1 hf => tick_absent_any cfg m s i r h1 hf⟩

/-- Witness for C7 on a steady-state tick whose fetch reports no bitrate. -/
theorem claim_C7_absent_bitrate_witness :
    (tick cfg0 msgs_en s0
      { obsAlive := true, connectOk := true, fetch := .ok none (some 50),
        items := some [], now := 100 }).1.warning_active = s0.warning_active ∧
    raiseCount (tick cfg0 msgs_en s0
      { obsAlive := true, connectOk := true, fetch := .ok none (some 50),
        items := some [], now := 100 }).2 = 0 :=
  ⟨(claim_C7_absent_bitrate.2 cfg0 msgs_en s0
      { obsAlive := true, connectOk := true, fetch := .ok none (some 50),
        items := some [], now := 100 } (some 50) (by decide) rfl).1,
   (claim_C7_absent_bitrate.2 cfg0 msgs_en s0
      { obsAlive := true, connectOk := true, fetch := .ok none (some 50),
        items := some [], now := 100 } (some 50) (by decide) rfl).2.2.1⟩

theorem validate_rtt_gt_one (cfg : Config) (hv : validate_config cfg = true) :
    1 < cfg.RTT_THRESHOLD := by
  simp only [validate_config, Bool.and_eq_true, decide_eq_true_eq] at hv
  tauto

/-- C10: a successful fetch whose publisher entry lacks an rtt field substitutes
rtt = 0; with the startup validation requiring RTT_THRESHOLD > 1 the RTT
condition is then always false, so such a sample can only raise a warning via
the bitrate threshold. -/
theorem claim_C10_absent_rtt :
    (∀ (cfg : Config) (m : Msgs) (s : MonitorState) (b : Option Int),
      (fetch_bitrate cfg m s (.ok b none)).1.2.1 = some 0) ∧
    (∀ cfg : Config, validate_config cfg = true → ¬ ((0 : Int) > cfg.RTT_THRESHOLD)) ∧
    (∀ (cfg : Config) (m : Msgs) (s : MonitorState) (i : TickInput) (b : Int),
      validate_config cfg = true →
      (ensure_obs_connection cfg m s i.obsAlive i.connectOk).1 = true →
      i.fetch = .ok (some b) none →
      1 ≤ raiseCount (tick cfg m s i).2 → b < cfg.BITRATE_THRESHOLD) := by
  refine ⟨fun cfg m s b => by simp [fetch_ok_triple], ?_, ?_⟩
  · intro cfg hv
    have := validate_rtt_gt_one cfg hv
    omega
  · intro cfg m s i b hv h1 hf hraise
    by_contra hnb
    have hrtt : ¬ ((0 : Int) > cfg.RTT_THRESHOLD) := by
      have := validate_rtt_gt_one cfg hv
      omega
    by_cases h0 : s.ignore_count = 0
    · have := (tick_detect cfg m s i b none h1 hf h0).2.2.2.2.1
      omega
    · rcases hw : s.initial_wait_start with _ | t0
      · have hth : ¬ (b < cfg.BITRATE_THRESHOLD ∨
            (none : Option Int).getD 0 > cfg.RTT_THRESHOLD) := by
          rintro (hc | hc)
          · exact hnb hc
          · exact hrtt (by simpa using hc)
        have := (tick_steady_quiet cfg m s i b none h1 hf h0 hw hth).2.2.1
        omega
      · have hng : ¬ (s.ignore_count = 0 ∧ (some b).isSome = true) := by
          simp [h0]
        by_cases h15 : i.now - t0 ≥ 15
        · have := (tick_grace_exit cfg m s i (some b) none t0 h1 hf hng hw h15).2.2.2.1
          omega
        · have := (tick_grace_hold cfg m s i (some b) none t0 h1 hf hng hw
            (by omega)).2.2.2.1
          omega

/-- Witness for C10: a raising tick whose sample has no rtt field implies the
bitrate was below threshold. -/
theorem claim_C10_absent_rtt_witness :
    validate_config cfg0 = true ∧
    1 ≤ raiseCount (tick cfg0 msgs_en s0
      { obsAlive := true, connectOk := true, fetch := .ok (some 800) none,
        items := some [], now := 100 }).2 ∧
    (800 : Int) < cfg0.BITRATE_THRESHOLD :=
  ⟨by decide, by decide,
   claim_C10_absent_rtt.2.2 cfg0 msgs_en s0
     { obsAlive := true, connectOk := true, fetch := .ok (some 800) none,
       items := some [], now := 100 } 800 (by decide) (by decide) rfl (by decide)⟩

theorem get_source_id_success_caches (cfg : Config) (m : Msgs) (s : MonitorState)
    (items : Option (List SceneItem)) (id : Int)
    (h : (get_source_id cfg m s items).1 = some id) :
    (get_source_id cfg m s items).2.1.source_id = some id := by
  rcases hc : s.source_id with _ | id0
  · rcases items with _ | its
    · simp [get_source_id, hc] at h
    · rcases hfind : find_source its cfg.SOURCE_NAME with _ | id1
      · simp [get_source_id, hc, hfind] at h
      · simp [get_source_id, hc, hfind] at h ⊢
        exact h
  · simp [get_source_id, hc] at h ⊢
    exact h

/-- C8 counterexample: with the cache empty and the overlay source missing from
the scene, two consecutive resolver calls with no reconnect in between perform
the scene-item enumeration twice — refuting "at most once in total". -/
theorem claim_C8_counterexample :
    sNoCache.source_id = none ∧
    (get_source_id cfg0 msgs_en sNoCache (some itemsOther)).1 = none ∧
    ((get_source_id cfg0 msgs_en sNoCache (some itemsOther)).2.2 ++
      (get_source_id cfg0 msgs_en
        (get_source_id cfg0 msgs_en sNoCache (some itemsOther)).2.1
        (some itemsOther)).2.2).countP isEnumerate = 2 := by decide

/-- C8 (amended): when the element id is already cached, the resolver returns
the cached id with no state change and no remote call; and when the first of
two consecutive resolver calls (no reconnect in between) returns successfully,
the two calls enumerate the scene items at most once in total.  (When the
first call fails — source not found or query error — the cache stays empty and
the second call enumerates again.) -/
theorem claim_C8_idempotent_discovery :
    (∀ (cfg : Config) (m : Msgs) (s : MonitorState)
        (items : Option (List SceneItem)) (id : Int),
      s.source_id = some id →
        (get_source_id cfg m s items).1 = some id ∧
        (get_source_id cfg m s items).2.1 = s ∧
        (get_source_id cfg m s items).2.2 = []) ∧
    (∀ (cfg : Config) (m : Msgs) (s : MonitorState)
        (items items2 : Option (List SceneItem)) (id : Int),
      (get_source_id cfg m s items).1 = some id →
        ((get_source_id cfg m s items).2.2 ++
          (get_source_id cfg m (get_source_id cfg m s items).2.1 items2).2.2).countP
            isEnumerate ≤ 1 ∧
        (get_source_id cfg m (get_source_id cfg m s items).2.1 items2).1 = some id) := by
  constructor
  · intro cfg m s items id hid
    simp [get_source_id, hid]
  · intro cfg m s items items2 id h
    have hcache := get_source_id_success_caches cfg m s items id h
    have hsec : ∀ s1 : MonitorState, s1.source_id = some id →
        get_source_id cfg m s1 items2 = (some id, s1, []) := by
      intro s1 hs1
      simp [get_source_id, hs1]
    have hsecond := hsec _ hcache
    rcases hc : s.source_id with _ | id0
    · rcases items with _ | its
      · simp [get_source_id, hc] at h
      · rcases hfind : find_source its cfg.SOURCE_NAME with _ | id1
        · simp [get_source_id, hc, hfind] at h
        · refine ⟨?_, by rw [hsecond]⟩
          rw [hsecond]
          simp [get_source_id, hc, hfind, List.countP_cons, isEnumerate]
    · refine ⟨?_, by rw [hsecond]⟩
      rw [hsecond]
      simp [get_source_id, hc]

/-- Witness for C8 with the id 7 already cached. -/
theorem claim_C8_idempotent_discovery_witness :
    s0.source_id = some 7 ∧
    (get_source_id cfg0 msgs_en s0 (some [])).1 = some 7 ∧
    (get_source_id cfg0 msgs_en s0 (some [])).2.2 = [] :=
  ⟨by decide,
   (claim_C8_idempotent_discovery.1 cfg0 msgs_en s0 (some []) 7 (by decide)).1,
   (claim_C8_idempotent_discovery.1 cfg0 msgs_en s0 (some []) 7 (by decide)).2.2⟩

theorem connect_to_obs_msgs (cfg : Config) (m m' : Msgs) (s : MonitorState) (ok : Bool) :
    (connect_to_obs cfg m s ok).1 = (connect_to_obs cfg m' s ok).1 ∧
    (connect_to_obs cfg m s ok).2.1 = (connect_to_obs cfg m' s ok).2.1 ∧
    (connect_to_obs cfg m s ok).2.2.map stripLog
      = (connect_to_obs cfg m' s ok).2.2.map stripLog := by
  simp only [connect_to_obs]
  split_ifs <;> simp [stripLog]

theorem ensure_obs_connection_msgs (cfg : Config) (m m' : Msgs) (s : MonitorState)
    (alive ok : Bool) :
    (ensure_obs_connection cfg m s alive ok).1
      = (ensure_obs_connection cfg m' s alive ok).1 ∧
    (ensure_obs_connection cfg m s alive ok).2.1
      = (ensure_obs_connection cfg m' s alive ok).2.1 ∧
    (ensure_obs_connection cfg m s alive ok).2.2.map stripLog
      = (ensure_obs_connection cfg m' s alive ok).2.2.map stripLog := by
  simp only [ensure_obs_connection]
  split_ifs with h1 h2
  · have h := connect_to_obs_msgs cfg m m' { s with is_connected := false } ok
    simp [stripLog, h.1, h.2.1, h.2.2]
  · have h := connect_to_obs_msgs cfg m m' s ok
    simp [stripLog, h.1, h.2.1, h.2.2]
  · simp

theorem fetch_bitrate_msgs (cfg : Config) (m m' : Msgs) (s : MonitorState)
    (r : FetchInput) :
    (fetch_bitrate cfg m s r).1 = (fetch_bitrate cfg m' s r).1 ∧
    (fetch_bitrate cfg m s r).2.1 = (fetch_bitrate cfg m' s r).2.1 ∧
    (fetch_bitrate cfg m s r).2.2.map stripLog
      = (fetch_bitrate cfg m' s r).2.2.map stripLog := by
  cases r <;> simp only [fetch_bitrate] <;> (try split_ifs) <;> simp [stripLog]

theorem get_source_id_msgs (cfg : Config) (m m' : Msgs) (s : MonitorState)
    (items : Option (List SceneItem)) :
    (get_source_id cfg m s items).1 = (get_source_id cfg m' s items).1 ∧
    (get_source_id cfg m s items).2.1 = (get_source_id cfg m' s items).2.1 ∧
    (get_source_id cfg m s items).2.2.map stripLog
      = (get_source_id cfg m' s items).2.2.map stripLog := by
  simp only [get_source_id]
  cases s.source_id <;> cases items <;> (try simp [stripLog])
  case none.some its =>
    cases find_source its cfg.SOURCE_NAME <;> simp [stripLog]

theorem toggle_warning_msgs (cfg : Config) (m m' : Msgs) (s : MonitorState)
    (items : Option (List SceneItem)) (visible : Bool) :
    (toggle_warning cfg m s items visible).1 = (toggle_warning cfg m' s items visible).1 ∧
    (toggle_warning cfg m s items visible).2.map stripLog
      = (toggle_warning cfg m' s items visible).2.map stripLog := by
  obtain ⟨g1, g2, g3⟩ := get_source_id_msgs cfg m m' s items
  simp only [toggle_warning]
  rcases hr : (get_source_id cfg m s items).1 with _ | id
  · have hr' : (get_source_id cfg m' s items).1 = none := g1.symm.trans hr
    simp [hr, hr', g2, g3, stripLog]
  · have hr' : (get_source_id cfg m' s items).1 = some id := g1.symm.trans hr
    simp [hr, hr', g2, g3, stripLog]

theorem handle_low_bitrate_msgs (cfg : Config) (m m' : Msgs) (now b r : Int)
    (s : MonitorState) (items : Option (List SceneItem)) :
    (handle_low_bitrate cfg m now b r s items).1
      = (handle_low_bitrate cfg m' now b r s items).1 ∧
    (handle_low_bitrate cfg m now b r s items).2.map stripLog
      = (handle_low_bitrate cfg m' now b r s items).2.map stripLog := by
  simp only [handle_low_bitrate]
  split_ifs with hg <;>
    first
      | (obtain ⟨w1, w2⟩ :=
          toggle_warning_msgs cfg m m' { s with warning_active := true } items true
         exact ⟨by rw [w1], by simp only [List.map_cons, List.map_append, w2, stripLog]⟩)
      | simp

theorem handle_initial_period_msgs (m m' : Msgs) (s : MonitorState) :
    (handle_initial_period m s).1 = (handle_initial_period m' s).1 ∧
    (handle_initial_period m s).2.map stripLog
      = (handle_initial_period m' s).2.map stripLog := by
  simp [handle_initial_period, stripLog]

theorem hide_warning_run_msgs (cfg : Config) (m m' : Msgs) (s : MonitorState)
    (items : Option (List SceneItem)) :
    (hide_warning_run cfg m s items).1 = (hide_warning_run cfg m' s items).1 ∧
    (hide_warning_run cfg m s items).2.map stripLog
      = (hide_warning_run cfg m' s items).2.map stripLog := by
  obtain ⟨w1, w2⟩ := toggle_warning_msgs cfg m m' s items false
  simp only [hide_warning_run]
  simp [stripLog, w1, w2]

theorem tick_msgs (cfg : Config) (m m' : Msgs) (s : MonitorState) (i : TickInput) :
    (tick cfg m s i).1 = (tick cfg m' s i).1 ∧
    (tick cfg m s i).2.map stripLog = (tick cfg m' s i).2.map stripLog := by
  obtain ⟨e1, e2, e3⟩ := ensure_obs_connection_msgs cfg m m' s i.obsAlive i.connectOk
  obtain ⟨f1, f2, f3⟩ := fetch_bitrate_msgs cfg m m'
    (ensure_obs_connection cfg m s i.obsAlive i.connectOk).2.1 i.fetch
  have hH : ∀ b rv, (handle_low_bitrate cfg m i.now b rv
        (fetch_bitrate cfg m (ensure_obs_connection cfg m s i.obsAlive i.connectOk).2.1
          i.fetch).2.1 i.items).1
      = (handle_low_bitrate cfg m' i.now b rv
        (fetch_bitrate cfg m (ensure_obs_connection cfg m s i.obsAlive i.connectOk).2.1
          i.fetch).2.1 i.items).1 ∧
      (handle_low_bitrate cfg m i.now b rv
        (fetch_bitrate cfg m (ensure_obs_connection cfg m s i.obsAlive i.connectOk).2.1
          i.fetch).2.1 i.items).2.map stripLog
      = (handle_low_bitrate cfg m' i.now b rv
        (fetch_bitrate cfg m (ensure_obs_connection cfg m s i.obsAlive i.connectOk).2.1
          i.fetch).2.1 i.items).2.map stripLog :=
    fun b rv => handle_low_bitrate_msgs cfg m m' i.now b rv _ i.items
  simp only [tick]
  rw [← e2, ← e1, ← f2, ← f1]
  by_cases h1 : (ensure_obs_connection cfg m s i.obsAlive i.connectOk).1 = true
  · by_cases h2 : (fetch_bitrate cfg m
        (ensure_obs_connection cfg m s i.obsAlive i.connectOk).2.1 i.fetch).1.2.2 = true
    · by_cases h0 : (fetch_bitrate cfg m
          (ensure_obs_connection cfg m s i.obsAlive i.connectOk).2.1
          i.fetch).2.1.ignore_count = 0 ∧
          (fetch_bitrate cfg m (ensure_obs_connection cfg m s i.obsAlive i.connectOk).2.1
            i.fetch).1.1.isSome = true
      · simp [h1, h2, h0, handle_initial_period, stripLog, e3, f3]
      · rcases hw : (fetch_bitrate cfg m
            (ensure_obs_connection cfg m s i.obsAlive i.connectOk).2.1
            i.fetch).2.1.initial_wait_start with _ | t0
        · rcases hb : (fetch_bitrate cfg m
              (ensure_obs_connection cfg m s i.obsAlive i.connectOk).2.1
              i.fetch).1.1 with _ | b
          · simp [h1, h2, h0, hw, hb, stripLog, e3, f3]
          · have h0' : ¬ (fetch_bitrate cfg m
                (ensure_obs_connection cfg m s i.obsAlive i.connectOk).2.1
                i.fetch).2.1.ignore_count = 0 := fun hc => h0 ⟨hc, by simp [hb]⟩
            by_cases hth : b < cfg.BITRATE_THRESHOLD ∨
                cfg.RTT_THRESHOLD < (fetch_bitrate cfg m
                  (ensure_obs_connection cfg m s i.obsAlive i.connectOk).2.1
                  i.fetch).1.2.1.getD 0
            · obtain ⟨hl1, hl2⟩ := hH b ((fetch_bitrate cfg m
                (ensure_obs_connection cfg m s i.obsAlive i.connectOk).2.1
                i.fetch).1.2.1.getD 0)
              simp [h1, h2, h0', hw, hb, hth, stripLog, e3, f3, hl1, hl2]
            · simp [h1, h2, h0', hw, hb, hth, stripLog, e3, f3]
        · by_cases h15 : 15 ≤ i.now - t0 <;>
            simp [h1, h2, h0, hw, h15, stripLog, e3, f3]
    · simp [h1, h2, stripLog, e3, f3]
  · simp [h1, stripLog, e3]

theorem step_run_msgs (cfg : Config) (m m' : Msgs) (s : MonitorState) (i : StepInput) :
    (step_run cfg m s i).1 = (step_run cfg m' s i).1 ∧
    (step_run cfg m s i).2.map stripLog = (step_run cfg m' s i).2.map stripLog := by
  cases i with
  | tickI i => exact tick_msgs cfg m m' s i
  | hideI items => exact hide_warning_run_msgs cfg m m' s items

theorem run_trace_msgs (cfg : Config) (m m' : Msgs) (s : MonitorState)
    (inputs : List StepInput) :
    (run_trace cfg m s inputs).1 = (run_trace cfg m' s inputs).1 ∧
    (run_trace cfg m s inputs).2.map stripLog
      = (run_trace cfg m' s inputs).2.map stripLog := by
  induction inputs generalizing s with
  | nil => simp [run_trace]
  | cons i rest ih =>
    obtain ⟨s1, e1⟩ := step_run_msgs cfg m m' s i
    obtain ⟨r1, r2⟩ := ih (step_run cfg m s i).1
    simp only [run_trace]
    rw [← s1]
    exact ⟨r1, by simp [List.map_append, e1, r2]⟩

/-- C9: the English and Korean variants are behaviourally equivalent — from any
state, any sequence of poll inputs and deferred-hide expiries produces the same
final state and the same effects, up to the text of log messages. -/
theorem claim_C9_locale_equivalence :
    ∀ (cfg : Config) (s : MonitorState) (inputs : List StepInput),
      (run_trace cfg msgs_en s inputs).1 = (run_trace cfg msgs_kr s inputs).1 ∧
      (run_trace cfg msgs_en s inputs).2.map stripLog
        = (run_trace cfg msgs_kr s inputs).2.map stripLog :=
  fun cfg s inputs => run_trace_msgs cfg msgs_en msgs_kr s inputs

end AutoObs
